import Mathlib

/- Shallow embedding of `src/sigma/backends/surrealql/surrealql.py`:
the `SurrealQLBackend` class of the pySigma SurrealQL backend.  The class
consists of configuration constants consumed by the external pySigma
framework and two methods, `finalize_query_default` and
`escape_and_quote_field`.  Python strings are modelled as Lean `String`
(with `String.data` as the character list), Python `int` as `Int`, and the
opaque framework objects (`SigmaRule`, `ConversionState`) as arbitrary
types, since the methods never inspect them. -/

/-- Boolean condition connective classes of the external framework
(`sigma.conditions`): the three referenced by the backend's `precedence`
tuple. -/
inductive ConditionItem where
  | ConditionAND : ConditionItem
  | ConditionOR : ConditionItem
  | ConditionNOT : ConditionItem
deriving DecidableEq

/-- Numeric comparison operators of the external framework
(`SigmaCompareExpression.CompareOperators`). -/
inductive CompareOperators where
  | LT : CompareOperators
  | LTE : CompareOperators
  | GT : CompareOperators
  | GTE : CompareOperators
deriving DecidableEq

/-- Semantics of Python `str.replace(old, new)` on character lists for a
non-empty `old`: scan left to right; whenever the text at the current
position starts with `pat`, emit `repl` and skip over the match
(non-overlapping), otherwise emit the current character and advance by
one.  The `pat ≠ []` guard keeps the function the identity on the empty
pattern, a case the backend never uses. -/
def replaceChars (pat repl : List Char) : List Char → List Char
  | [] => []
  | c :: rest =>
    if h : pat ≠ [] ∧ (c :: rest).take pat.length = pat then
      repl ++ replaceChars pat repl ((c :: rest).drop pat.length)
    else
      c :: replaceChars pat repl rest
termination_by s => s.length
decreasing_by
  · have hp : 0 < pat.length := List.length_pos.mpr h.1
    simp only [List.length_drop, List.length_cons]
    omega
  · simp

namespace SurrealQLBackend

/-- Source: `table = "<TABLE_NAME>"`. -/
def table : String := "<TABLE_NAME>"

/-- Source: `or_token: ClassVar[str] = "OR"`. -/
def or_token : String := "OR"

/-- Source: `and_token: ClassVar[str] = "AND"`. -/
def and_token : String := "AND"

/-- Source: `not_token: ClassVar[str] = "NOT"`. -/
def not_token : String := "NOT"

/-- Source: `eq_token: ClassVar[str] = "="`. -/
def eq_token : String := "="

/-- Source: `group_expression: ClassVar[str] = "({expr})"`. -/
def group_expression : String := "({expr})"

/-- Source: `precedence: ClassVar[Tuple[...]] = (ConditionNOT, ConditionAND, ConditionOR)`. -/
def precedence : ConditionItem × ConditionItem × ConditionItem :=
  (ConditionItem.ConditionNOT, ConditionItem.ConditionAND, ConditionItem.ConditionOR)

/-- Source: `compare_op_expression: ClassVar[str] = "{field} {operator} {value}"`. -/
def compare_op_expression : String := "{field} {operator} {value}"

/-- Source: the `compare_operators` class dictionary mapping each
`CompareOperators` element to its SurrealQL token. -/
def compare_operators : CompareOperators → String
  | CompareOperators.LT => "<"
  | CompareOperators.LTE => "<="
  | CompareOperators.GT => ">"
  | CompareOperators.GTE => ">="

/-- Source: method `finalize_query_default(self, rule, query, index, state)`,
whose body is the f-string
`f"SELECT * FROM {self.table} WHERE {query};"`.  The `rule`, `index` and
`state` parameters are present in the signature but never read, so they
are given arbitrary types. -/
def finalize_query_default {R S : Type} (rule : R) (query : String)
    (index : Int) (state : S) : String :=
  "SELECT * FROM " ++ table ++ " WHERE " ++ query ++ ";"

/-- Source: method `escape_and_quote_field(self, field_name)`, whose body is
`field_name.replace(" ", "_")`. -/
def escape_and_quote_field (field_name : String) : String :=
  String.mk (replaceChars [' '] ['_'] field_name.data)

/-- Configuration record holding the class-level constants of
`SurrealQLBackend` that the claims mention, used to state frame
properties of the two methods in state-passing style. -/
structure BackendConfig where
  table : String
  or_token : String
  and_token : String
  not_token : String
  eq_token : String
  group_expression : String
  compare_op_expression : String
  compare_operators : CompareOperators → String
  precedence : ConditionItem × ConditionItem × ConditionItem

/-- Record of `SurrealQLBackend` class-level constants with the values the
source assigns them. -/
def defaultConfig : BackendConfig where
  table := "<TABLE_NAME>"
  or_token := "OR"
  and_token := "AND"
  not_token := "NOT"
  eq_token := "="
  group_expression := "({expr})"
  compare_op_expression := "{field} {operator} {value}"
  compare_operators := compare_operators
  precedence := (ConditionItem.ConditionNOT, ConditionItem.ConditionAND,
    ConditionItem.ConditionOR)

/-- State-passing embedding of `finalize_query_default`: the method body
contains no assignment to `self`, `rule` or `state`, so the post-state
components are the inputs themselves; the first component is the returned
string. -/
def finalize_query_default_run {R S : Type} (self : BackendConfig) (rule : R)
    (query : String) (index : Int) (state : S) : String × BackendConfig × R × S :=
  ("SELECT * FROM " ++ self.table ++ " WHERE " ++ query ++ ";", self, rule, state)

/-- State-passing embedding of `escape_and_quote_field`: the method body
contains no assignment to `self`, so the post-state component is the input
configuration; the first component is the returned string. -/
def escape_and_quote_field_run (self : BackendConfig) (field_name : String) :
    String × BackendConfig :=
  (String.mk (replaceChars [' '] ['_'] field_name.data), self)

end SurrealQLBackend

open SurrealQLBackend

/-- Characterization of the Python replacement with the single-character
pattern `" "` and replacement `"_"`: it is exactly the character map that
sends a space to an underscore and fixes every other character. -/
theorem replaceChars_space_eq (l : List Char) :
    replaceChars [' '] ['_'] l = l.map (fun c => if c = ' ' then '_' else c) := by
  induction l with
  | nil => simp [replaceChars]
  | cons c rest ih =>
    by_cases hc : c = ' '
    · subst hc
      rw [replaceChars]
      simp [ih]
    · rw [replaceChars]
      simp [hc, ih]

/-- Character-list view of `escape_and_quote_field`. -/
theorem escape_and_quote_field_data (s : String) :
    (escape_and_quote_field s).data
      = s.data.map (fun c => if c = ' ' then '_' else c) :=
  replaceChars_space_eq s.data

/-- The space-to-underscore character map is the identity on lists without
a space. -/
theorem map_space_eq_self (l : List Char) (h : ' ' ∉ l) :
    l.map (fun c => if c = ' ' then '_' else c) = l := by
  induction l with
  | nil => rfl
  | cons c rest ih =>
    simp only [List.mem_cons, not_or] at h
    have hc : c ≠ ' ' := fun hcc => h.1 hcc.symm
    simp only [List.map_cons, if_neg hc, ih h.2]

/-- List-level idempotence of the space-to-underscore replacement. -/
theorem replaceChars_space_idem (l : List Char) :
    replaceChars [' '] ['_'] (replaceChars [' '] ['_'] l)
      = replaceChars [' '] ['_'] l := by
  simp only [replaceChars_space_eq, List.map_map]
  refine List.map_congr_left ?_
  intro a _
  by_cases ha : a = ' ' <;> simp [ha, Function.comp]

/-- C1: for every query string and arbitrary rule, index and conversion
state, `finalize_query_default` returns exactly
`"SELECT * FROM <TABLE_NAME> WHERE " ++ query ++ ";"`, with the query
substituted verbatim. -/
theorem finalize_query_default_shape {R S : Type} (rule : R) (query : String)
    (index : Int) (state : S) :
    finalize_query_default rule query index state
      = "SELECT * FROM <TABLE_NAME> WHERE " ++ query ++ ";" := rfl

/-- C2: `escape_and_quote_field` maps each character of its input in place,
sending every space to an underscore and fixing every other character, and
the output has the same length as the input. -/
theorem escape_and_quote_field_pointwise (field_name : String) :
    (escape_and_quote_field field_name).data
        = field_name.data.map (fun c => if c = ' ' then '_' else c)
      ∧ (escape_and_quote_field field_name).length = field_name.length := by
  refine ⟨escape_and_quote_field_data field_name, ?_⟩
  show (escape_and_quote_field field_name).data.length = field_name.data.length
  rw [escape_and_quote_field_data, List.length_map]

/-- C3: on a field name containing no space character,
`escape_and_quote_field` is the identity. -/
theorem escape_and_quote_field_id_of_no_space (field_name : String)
    (h : ' ' ∉ field_name.data) :
    escape_and_quote_field field_name = field_name := by
  unfold escape_and_quote_field
  rw [replaceChars_space_eq, map_space_eq_self field_name.data h]

/-- Witness for C3 at the concrete field name `"Process_Name"`. -/
theorem escape_and_quote_field_id_of_no_space_witness :
    ' ' ∉ "Process_Name".data
      ∧ escape_and_quote_field "Process_Name" = "Process_Name" :=
  ⟨by decide, escape_and_quote_field_id_of_no_space "Process_Name" (by decide)⟩

/-- C4: both functions of the backend are total: on every input each
returns a string, with no error value or exceptional branch in their
bodies. -/
theorem backend_functions_total {R S : Type} (rule : R) (query : String)
    (index : Int) (state : S) (field_name : String) :
    (∃ q : String, finalize_query_default rule query index state = q)
      ∧ (∃ f : String, escape_and_quote_field field_name = f) :=
  ⟨⟨_, rfl⟩, ⟨_, rfl⟩⟩

/-- C5: the declared precedence tuple is exactly
(ConditionNOT, ConditionAND, ConditionOR). -/
theorem precedence_is_not_and_or :
    precedence = (ConditionItem.ConditionNOT, ConditionItem.ConditionAND,
      ConditionItem.ConditionOR) := rfl

/-- C6: both methods are stateless: in the state-passing embedding, the
configuration record, the rule and the conversion state come back
unchanged from every call; only the returned string is produced. -/
theorem backend_methods_stateless :
    (∀ {R S : Type} (self : BackendConfig) (rule : R) (query : String)
        (index : Int) (state : S),
      (finalize_query_default_run self rule query index state).2
        = (self, rule, state))
      ∧ (∀ (self : BackendConfig) (field_name : String),
          (escape_and_quote_field_run self field_name).2 = self) := by
  constructor
  · intro R S self rule query index state
    rfl
  · intro self field_name
    rfl

/-- C7: the comparison-operator table maps LT, LTE, GT, GTE to their
SurrealQL tokens, rendered through the compare template
"\x7bfield\x7d \x7boperator\x7d \x7bvalue\x7d", and no operation of the
backend alters these constants. -/
theorem compare_operators_table :
    compare_operators CompareOperators.LT = "<"
      ∧ compare_operators CompareOperators.LTE = "<="
      ∧ compare_operators CompareOperators.GT = ">"
      ∧ compare_operators CompareOperators.GTE = ">="
      ∧ compare_op_expression = "{field} {operator} {value}"
      ∧ (∀ {R S : Type} (self : BackendConfig) (rule : R) (query : String)
            (index : Int) (state : S),
          ((finalize_query_default_run self rule query index state).2.1).compare_operators
            = self.compare_operators)
      ∧ (∀ (self : BackendConfig) (field_name : String),
          ((escape_and_quote_field_run self field_name).2).compare_operators
            = self.compare_operators) := by
  refine ⟨rfl, rfl, rfl, rfl, rfl, ?_, ?_⟩
  · intro R S self rule query index state
    rfl
  · intro self field_name
    rfl

/-- C8: the output of `finalize_query_default` depends only on the query
string: two invocations with the same query but arbitrarily different
rule, index and state arguments (even of different types) return equal
strings. -/
theorem finalize_query_default_depends_only_on_query
    {R₁ S₁ R₂ S₂ : Type} (rule₁ : R₁) (state₁ : S₁) (rule₂ : R₂) (state₂ : S₂)
    (query : String) (index₁ index₂ : Int) :
    finalize_query_default rule₁ query index₁ state₁
      = finalize_query_default rule₂ query index₂ state₂ := rfl

/-- C9: `escape_and_quote_field` is idempotent. -/
theorem escape_and_quote_field_idem (s : String) :
    escape_and_quote_field (escape_and_quote_field s)
      = escape_and_quote_field s := by
  unfold escape_and_quote_field
  exact congrArg String.mk (replaceChars_space_idem s.data)

/-- C10: the result of `escape_and_quote_field` never contains a space
character. -/
theorem escape_and_quote_field_no_space (s : String) :
    ' ' ∉ (escape_and_quote_field s).data := by
  intro hc
  rw [escape_and_quote_field_data] at hc
  obtain ⟨a, _, ha⟩ := List.mem_map.mp hc
  by_cases h : a = ' '
  · rw [if_pos h] at ha
    exact absurd ha (by decide)
  · rw [if_neg h] at ha
    exact h ha
